import Mathlib

/-!
Verification of the DMM Affiliate API v3 client (dmm-sdk).

Shallow embedding of `src/client.ts` (`DmmApiClient`: constructor, `request`,
`getAllItems`) and `src/helperClient.ts` (`DmmApiHelperClient.getItemById`).
Network effects are modelled by oracles: `request` receives the outcome of
each `fetch` invocation as a function from the call index, and the pagination
generator receives the outcome of each page fetch as a function from the
fetch index.  Machine integers of the source are JavaScript numbers used as
counters, statuses and delays; they are modelled as `Nat`.
-/

namespace DmmSdk

/-! ## String helpers (JavaScript string operations used by the source) -/

/-- Lower-case a string, modelling `String.prototype.toLowerCase` on the
ASCII fragment the source compares against. -/
def strLower (s : String) : String :=
  ⟨s.data.map Char.toLower⟩

/-- Does the character list `hay` start with `needle`? -/
def listStartsWith : List Char → List Char → Bool
  | _, [] => true
  | [], _ :: _ => false
  | c :: cs, d :: ds => c == d && listStartsWith cs ds

/-- Does the character list `hay` contain `needle` as a contiguous run?
Models `String.prototype.includes`. -/
def listHasSub : List Char → List Char → Bool
  | [], needle => needle.isEmpty
  | c :: rest, needle => listStartsWith (c :: rest) needle || listHasSub rest needle

/-- Does string `hay` contain `needle`?  Models `hay.includes(needle)`. -/
def strHasSub (hay needle : String) : Bool :=
  listHasSub hay.data needle.data

/-! ## JSON values

Model of the JavaScript values produced by `response.json()`. -/

/-- A JSON value. -/
inductive Json where
  | null
  | bool (b : Bool)
  | num (n : Int)
  | str (s : String)
  | arr (elems : List Json)
  | obj (fields : List (String × Json))

/-- Look up a field of a JSON object field list (first binding wins, as in a
JavaScript object, whose keys are unique). -/
def jsonLookup (fields : List (String × Json)) (k : String) : Option Json :=
  match fields.find? (fun p => p.1 == k) with
  | some p => some p.2
  | none => none

/-- `!data || typeof data !== 'object' || !('result' in data)` from
`client.ts:104`, negated: `true` iff `data` is an object with a top-level
`result` key.  `null`, numbers, strings, booleans and arrays without the key
all fail the check. -/
def hasResultField : Json → Bool
  | .obj fields => (jsonLookup fields "result").isSome
  | _ => false

/-- `data.result` for an object that passed `hasResultField`; `Json.null`
otherwise (never reached on the success path). -/
def jsonResultField : Json → Json
  | .obj fields =>
    match jsonLookup fields "result" with
    | some v => v
    | none => Json.null
  | _ => Json.null

/-- JavaScript truthiness of a JSON value. -/
def jsonTruthy : Json → Bool
  | .null => false
  | .bool b => b
  | .num n => n != 0
  | .str s => s != ""
  | .arr _ => true
  | .obj _ => true

mutual

/-- JavaScript `String(v)` coercion of a JSON value, as used by a template
literal.  Array elements display like the value, except `null` displays
empty. -/
def jsonDisplay : Json → String
  | .null => "null"
  | .bool b => if b then "true" else "false"
  | .num n => toString n
  | .str s => s
  | .arr elems => String.intercalate "," (jsonDisplayElems elems)
  | .obj _ => "[object Object]"

/-- Display of the elements of a JSON array. -/
def jsonDisplayElems : List Json → List String
  | [] => []
  | .null :: rest => "" :: jsonDisplayElems rest
  | v :: rest => jsonDisplay v :: jsonDisplayElems rest

end

/-- Escape a string for `JSON.stringify`. -/
def jsonEscape (s : String) : String :=
  String.join (s.data.map fun c =>
    if c == '\"' then "\\\"" else if c == '\\' then "\\\\" else String.singleton c)

mutual

/-- `JSON.stringify` of a JSON value (compact form, as Node prints it). -/
def jsonStringify : Json → String
  | .null => "null"
  | .bool b => if b then "true" else "false"
  | .num n => toString n
  | .str s => "\"" ++ jsonEscape s ++ "\""
  | .arr elems => "[" ++ String.intercalate "," (jsonStringifyElems elems) ++ "]"
  | .obj fields => "\x7b" ++
      String.intercalate "," (jsonStringifyFields fields) ++ "\x7d"

/-- `JSON.stringify` of the elements of a JSON array. -/
def jsonStringifyElems : List Json → List String
  | [] => []
  | v :: rest => jsonStringify v :: jsonStringifyElems rest

/-- `JSON.stringify` of the fields of a JSON object. -/
def jsonStringifyFields : List (String × Json) → List String
  | [] => []
  | (k, v) :: rest =>
    ("\"" ++ jsonEscape k ++ "\":" ++ jsonStringify v) :: jsonStringifyFields rest

end

/-- `errorBody?.result?.message` from `client.ts:120`: present only when the
body is an object whose `result` field is itself an object carrying a
`message` field. -/
def resultMessageField : Json → Option Json
  | .obj fields =>
    match jsonLookup fields "result" with
    | some (.obj inner) => jsonLookup inner "message"
    | _ => none
  | _ => none

/-! ## The error values thrown and caught inside `request` -/

/-- A JavaScript error value as observed by the `catch` block of
`client.ts:123-159`: its `name`, its `message`, and whether it is an
`instanceof TypeError` (the only retried kind of thrown error). -/
structure JsError where
  name : String
  message : String
  isTypeError : Bool

/-- The timeout classification of `client.ts:126-139`: `AbortError` by name,
or a non-empty message containing `aborted` case-insensitively or the literal
`The operation was aborted`. -/
def isTimeoutError (e : JsError) : Bool :=
  e.name == "AbortError" ||
    (e.message != "" &&
      (strHasSub (strLower e.message) "aborted" ||
        strHasSub e.message "The operation was aborted"))

/-- The error thrown at `client.ts:105` when a 2xx body lacks the `result`
envelope key.  A plain `Error`: not abort-flavoured, not a `TypeError`. -/
def invalidFormatError : JsError :=
  ⟨"Error", "Invalid API response format: \"result\" field is missing.", false⟩

/-! ## The fetch oracle -/

/-- One settled HTTP response: status, status text, the outcome of
`response.json()` (which may itself reject), and the text body used as the
fallback when reading an error body fails to parse. -/
structure HttpResponse where
  status : Nat
  statusText : String
  jsonBody : Except JsError Json
  textBody : String

/-- The outcome of one `fetch` invocation: a settled response, or a
rejection with a JavaScript error. -/
inductive FetchOutcome where
  | resp (r : HttpResponse)
  | err (e : JsError)

/-! ## The request loop (`DmmApiClient.request`, `client.ts:93-163`) -/

/-- The classified final error raised by `request`, one constructor per
`throw` site of the source. -/
inductive RequestError where
  /-- `client.ts:121`: non-retryable HTTP status or exhausted HTTP retries. -/
  | httpFailed (message : String)
  /-- `client.ts:142`: abort-classified failure, surfaced as a timeout. -/
  | timedOut (message : String)
  /-- `client.ts:158`: caught error that is neither abort-flavoured nor a
  retryable network error — including the invalid-envelope parse failure. -/
  | wrappedFailure (message : String)
  /-- `client.ts:162`: the guard after the loop, normally unreachable. -/
  | unreachableEnd (message : String)

/-- The observable behaviour of one `request` invocation: how many network
calls it made, the backoff delays it waited (in order), and the result. -/
structure RequestTrace where
  calls : Nat
  delays : List Nat
  result : Except RequestError Json

/-- The message of `client.ts:120-121` for a non-retryable (or
retry-exhausted) HTTP error response. -/
def httpFailMessage (ep : String) (r : HttpResponse) (attempts : Nat) : String :=
  let errorBody : Json :=
    match r.jsonBody with
    | .ok j => j
    | .error _ => Json.str r.textBody
  let errorMessage : String :=
    match resultMessageField errorBody with
    | some v =>
      if jsonTruthy v then jsonDisplay v
      else httpFailFallback errorBody r.statusText
    | none => httpFailFallback errorBody r.statusText
  "API request to " ++ ep ++ " failed with status " ++ toString r.status ++
    " after " ++ toString attempts ++ " attempts: " ++ errorMessage
where
  /-- `(typeof errorBody === 'string' ? errorBody : JSON.stringify(errorBody))
  || response.statusText`. -/
  httpFailFallback (errorBody : Json) (statusText : String) : String :=
    let b := match errorBody with
      | .str s => s
      | other => jsonStringify other
    if b = "" then statusText else b

/-- What one loop iteration decides to do next. -/
inductive StepVerdict where
  | success (payload : Json)
  | fail (err : RequestError)
  | retryAfter (delay : Nat)

/-- The `catch` block of `client.ts:123-159` for a caught error `e` at the
current `attempts` count: timeout classification first, then the
network-retry test (`error instanceof TypeError` and `attempts <
maxRetries`, incrementing `attempts` and backing off
`retryDelay * 2 ^ (attempts - 1)` with the incremented counter), else the
final wrapping throw. -/
def requestCatch (maxRetries retryDelay timeout : Nat) (ep : String)
    (attempts : Nat) (e : JsError) : StepVerdict :=
  if isTimeoutError e then
    .fail (.timedOut ("API request to " ++ ep ++ " timed out after " ++
      toString timeout ++ "ms"))
  else if e.isTypeError = true ∧ attempts < maxRetries then
    .retryAfter (retryDelay * 2 ^ attempts)
  else
    .fail (.wrappedFailure ("Error during API request to " ++ ep ++ " after " ++
      toString attempts ++ " attempts: " ++ e.message))

/-- One iteration of the `while` loop of `client.ts:94-160` on the outcome of
its `fetch`: the 2xx path unwraps the envelope (the missing-`result` throw of
line 105 and a rejecting `response.json()` both flow into the `catch`), the
429/5xx path retries while `attempts < maxRetries` with backoff
`retryDelay * 2 ^ (attempts - 1)` on the incremented counter, any other
status throws at line 121, and a rejected `fetch` flows into the `catch`. -/
def requestStep (maxRetries retryDelay timeout : Nat) (ep : String)
    (attempts : Nat) : FetchOutcome → StepVerdict
  | .resp r =>
    if 200 ≤ r.status ∧ r.status ≤ 299 then
      match r.jsonBody with
      | .ok data =>
        if hasResultField data then .success (jsonResultField data)
        else requestCatch maxRetries retryDelay timeout ep attempts invalidFormatError
      | .error e => requestCatch maxRetries retryDelay timeout ep attempts e
    else if (r.status = 429 ∨ 500 ≤ r.status) ∧ attempts < maxRetries then
      .retryAfter (retryDelay * 2 ^ attempts)
    else
      .fail (.httpFailed (httpFailMessage ep r attempts))
  | .err e => requestCatch maxRetries retryDelay timeout ep attempts e

/-- The loop of `client.ts:93-163`.  `budget` is the number of retries still
allowed (`maxRetries - attempts`); it bounds the recursion exactly as the
loop guard `attempts <= maxRetries` bounds the source loop, because every
`continue` increments `attempts`.  `calls` and `delays` accumulate the trace;
`fetch n` is the outcome of the `(n+1)`-th network call.  A `retryAfter`
verdict with an exhausted budget cannot arise when `budget = maxRetries -
attempts` (the retry tests require `attempts < maxRetries`); it is mapped to
the guard throw of line 162. -/
def requestGo (maxRetries retryDelay timeout : Nat) (ep : String)
    (fetch : Nat → FetchOutcome) (budget attempts calls : Nat)
    (delays : List Nat) : RequestTrace :=
  match requestStep maxRetries retryDelay timeout ep attempts (fetch calls) with
    | .success v => ⟨calls + 1, delays, .ok v⟩
    | .fail err => ⟨calls + 1, delays, .error err⟩
    | .retryAfter d =>
      match budget with
      | 0 => ⟨calls + 1, delays, .error (.unreachableEnd
          ("Reached end of request function unexpectedly after " ++
            toString (maxRetries + 1) ++ " attempts for endpoint " ++ ep ++ "."))⟩
      | b + 1 =>
        requestGo maxRetries retryDelay timeout ep fetch b (attempts + 1)
          (calls + 1) (delays ++ [d])

/-- `DmmApiClient.request` with the URL-building prefix abstracted into the
fetch oracle: the loop starts with `attempts = 0` and a full retry budget. -/
def request (maxRetries retryDelay timeout : Nat) (ep : String)
    (fetch : Nat → FetchOutcome) : RequestTrace :=
  requestGo maxRetries retryDelay timeout ep fetch maxRetries 0 0 []

/-! ## Query-string construction (`client.ts:79-91`) -/

/-- A defined caller-supplied parameter value: `string | number`. -/
inductive ParamValue where
  | str (s : String)
  | num (n : Int)

/-- `String(params[key])` for a defined value. -/
def paramValueString : ParamValue → String
  | .str s => s
  | .num n => toString n

/-- Assignment `queryParams[key] = v` on a JavaScript object modelled as an
assignment list with unique keys in insertion order: an existing binding is
overwritten in place, a new key is appended. -/
def jsObjSet (m : List (String × String)) (k v : String) : List (String × String) :=
  if m.any (fun p => p.1 == k) then
    m.map (fun p => if p.1 == k then (k, v) else p)
  else
    m ++ [(k, v)]

/-- The body of the `for (const key in params)` loop of `client.ts:85-89`:
an entry is copied into `queryParams` only when its key is not a credential
key and its value is defined. -/
def queryStep (acc : List (String × String)) (kv : String × Option ParamValue) :
    List (String × String) :=
  match kv.2 with
  | some v =>
    if kv.1 ≠ "api_id" ∧ kv.1 ≠ "affiliate_id" then
      jsObjSet acc kv.1 (paramValueString v)
    else acc
  | none => acc

/-- The `queryParams` object handed to `URLSearchParams` at `client.ts:79-90`:
seeded with the credentials, then every caller entry whose key is not a
credential key and whose value is defined is copied in, stringified.  The
caller mapping is modelled as an association list in property-iteration
order (`Option ParamValue` with `none` for `undefined`). -/
def buildQueryParams (apiId affiliateId : String)
    (params : List (String × Option ParamValue)) : List (String × String) :=
  params.foldl queryStep [("api_id", apiId), ("affiliate_id", affiliateId)]

/-! ## Client construction (`client.ts:58-67`) -/

/-- `DmmApiClientOptions` (`client.ts:22-33`): credentials plus optional
numeric knobs, `none` modelling an absent (`undefined`) option. -/
structure DmmApiClientOptionsM where
  apiId : String
  affiliateId : String
  timeout : Option Nat
  maxRetries : Option Nat
  retryDelay : Option Nat

/-- The resolved private fields of a constructed `DmmApiClient`. -/
structure DmmApiClientConfig where
  apiId : String
  affiliateId : String
  timeout : Nat
  maxRetries : Nat
  retryDelay : Nat

/-- JavaScript `x || d` on `number | undefined`: `undefined` and the falsy
`0` both yield the default. -/
def jsOrDefault (v : Option Nat) (d : Nat) : Nat :=
  match v with
  | some n => if n = 0 then d else n
  | none => d

/-- The constructor of `client.ts:58-67`: rejects empty (falsy) credentials,
resolves `timeout` and `retryDelay` with `||` (so `0` falls back to the
default) and `maxRetries` with `??` (so `0` is kept). -/
def mkDmmApiClient (o : DmmApiClientOptionsM) : Except String DmmApiClientConfig :=
  if o.apiId = "" ∨ o.affiliateId = "" then
    .error "API ID and Affiliate ID are required."
  else
    .ok { apiId := o.apiId
          affiliateId := o.affiliateId
          timeout := jsOrDefault o.timeout 10000
          maxRetries := o.maxRetries.getD 3
          retryDelay := jsOrDefault o.retryDelay 1000 }

/-! ## Pagination (`DmmApiClient.getAllItems`, `client.ts:236-286`) -/

/-- The fields of an `ItemListResponse` read by the generator, with the
record type abstract.  `items` is optional in the response type
(`items?: Item[]`); an absent field, like an empty one, ends the loop. -/
structure ItemListResponseM (α : Type) where
  result_count : Nat
  total_count : Nat
  first_position : Nat
  items : Option (List α)

/-- The failure of one underlying `getItemList` call, as observed by the
`catch` of `client.ts:268`: an `Error` with its message (the stack, copied
by the source for diagnostics, is not observable here). -/
structure FetchFailure where
  message : String

/-- The error the generator throws at `client.ts:269-283`: the enhanced
message and, as `cause`, the underlying error value. -/
structure PaginationFailure where
  message : String
  cause : FetchFailure

/-- `Error in getAllItems at offset ...` (`client.ts:269`). -/
def pagErrMessage (offset : Nat) (e : FetchFailure) : String :=
  "Error in getAllItems at offset " ++ toString offset ++ ": " ++ e.message

/-- The observable behaviour of one `getAllItems` iteration run with a given
amount of fuel: the records yielded so far (in order) and the offsets at
which page fetches were issued (in order), ending in normal completion, a
thrown `PaginationFailure`, or fuel exhaustion with the loop still
running. -/
inductive PagResult (α : Type) where
  | done (yielded : List α) (offsets : List Nat)
  | failed (yielded : List α) (offsets : List Nat) (err : PaginationFailure)
  | ranOut (yielded : List α) (offsets : List Nat)

/-- Is the run still unfinished (fuel ran out mid-loop)? -/
def PagResult.stillRunning {α : Type} : PagResult α → Bool
  | .ranOut _ _ => true
  | _ => false

/-- The loop guard of `client.ts:247`:
`totalCount === -1 || currentOffset <= totalCount`, with the `-1` sentinel
modelled as `none`. -/
def pagContinue : Option Nat → Nat → Bool
  | none, _ => true
  | some t, cur => decide (cur ≤ t)

/-- The `while` loop of `client.ts:247-285`, one fuel unit per iteration.
`fetchPage n` is the outcome of the `(n+1)`-th `getItemList` call; `cur` is
`currentOffset`; `tot` is `totalCount` (`none` until the first response).
On the first response the total is recorded and a zero total returns at
once; a page with records yields them in order and advances the offset to
`first_position + items.length`; an absent or empty `items` breaks; a
fetch failure is rethrown enhanced with the current offset and the original
error as cause, after all previously yielded records. -/
def getAllItemsGo {α : Type}
    (fetchPage : Nat → Except FetchFailure (ItemListResponseM α)) :
    Nat → Nat → Nat → Option Nat → List α → List Nat → PagResult α
  | 0, _, _, _, ys, offs => .ranOut ys offs
  | fuel + 1, idx, cur, tot, ys, offs =>
    if pagContinue tot cur then
      match fetchPage idx with
      | .error e => .failed ys (offs ++ [cur]) ⟨pagErrMessage cur e, e⟩
      | .ok r =>
        if tot = none ∧ r.total_count = 0 then .done ys (offs ++ [cur])
        else
          match r.items with
          | some its =>
            if 0 < its.length then
              getAllItemsGo fetchPage fuel (idx + 1)
                (r.first_position + its.length) (some (tot.getD r.total_count))
                (ys ++ its) (offs ++ [cur])
            else .done ys (offs ++ [cur])
          | none => .done ys (offs ++ [cur])
    else .done ys offs

/-- `DmmApiClient.getAllItems`: the loop started at `currentOffset = 1` with
the total unknown.  Every iteration fixes `hits = 100` in the page request;
the trace records the `offset` parameter of each fetch. -/
def getAllItemsRun {α : Type}
    (fetchPage : Nat → Except FetchFailure (ItemListResponseM α))
    (fuel : Nat) : PagResult α :=
  getAllItemsGo fetchPage fuel 0 1 none [] []

/-- The generator terminates on a given page oracle: some finite fuel
completes the run (one fuel unit per loop iteration, so this is exactly
termination of the source loop). -/
def GetAllItemsTerminates {α : Type}
    (fetchPage : Nat → Except FetchFailure (ItemListResponseM α)) : Prop :=
  ∃ fuel, (getAllItemsRun fetchPage fuel).stillRunning = false

/-- The offset at which the `(n+1)`-th page fetch would be issued, computed
from the page stream alone: the first fetch is at 1, and a successful page
with records moves the cursor to `first_position + items.length` (other
outcomes end the loop, so the value is irrelevant and kept constant). -/
def pagOffsetSeq {α : Type}
    (fetchPage : Nat → Except FetchFailure (ItemListResponseM α)) : Nat → Nat
  | 0 => 1
  | n + 1 =>
    match fetchPage n with
    | .ok r =>
      match r.items with
      | some its =>
        if 0 < its.length then r.first_position + its.length
        else pagOffsetSeq fetchPage n
      | none => pagOffsetSeq fetchPage n
    | .error _ => pagOffsetSeq fetchPage n

/-- The records delivered to the consumer by the first `n` page fetches,
computed from the page stream alone: each successful page contributes its
`items` (absent modelled as none contributing nothing), a failed fetch
contributes nothing. -/
def pagYields {α : Type}
    (fetchPage : Nat → Except FetchFailure (ItemListResponseM α)) : Nat → List α
  | 0 => []
  | n + 1 =>
    pagYields fetchPage n ++
      (match fetchPage n with
       | .ok r => r.items.getD []
       | .error _ => [])

/-- The offsets at which the first `n` page fetches are issued, computed
from the page stream alone via `pagOffsetSeq`. -/
def pagOffsets {α : Type}
    (fetchPage : Nat → Except FetchFailure (ItemListResponseM α)) : Nat → List Nat
  | 0 => []
  | n + 1 => pagOffsets fetchPage n ++ [pagOffsetSeq fetchPage n]

/-! ## `DmmApiHelperClient.getItemById` (`helperClient.ts:129-150`) -/

/-- The body of `getItemById` as a function of the outcome of its single
`getItemList` call (issued with `cid`, `hits = 1`, `offset = 1`): a response
with at least one item resolves to that item, an empty or absent `items`
resolves to `null`, and — in the revision under `src/helperClient.ts` — a
rejected call is caught, logged with `console.error`, and also resolved to
`null` rather than rethrown. -/
def getItemById {α : Type}
    (callResult : Except FetchFailure (ItemListResponseM α)) :
    Except FetchFailure (Option α) :=
  match callResult with
  | .ok r =>
    match r.items with
    | some (x :: _) => .ok (some x)
    | _ => .ok none
  | .error _ => .ok none

/-! ## Client construction with `baseUrl` (spec §6, modelled)

Modelled from the spec: the repository revision that adds the optional
`baseUrl` construction option is not present under the sources (only its
test file is), so `baseUrl` handling below follows the words of spec §6 —
an optional http(s) URL string defaulting to the fixed production endpoint,
the trailing slash normalized away, and construction failing when a
supplied `baseUrl` is not a well-formed http/https URL (the error message
is the one the test file expects). -/

/-- Modelled from the spec: options including the optional `baseUrl`. -/
structure DmmApiClientOptionsB where
  apiId : String
  affiliateId : String
  baseUrl : Option String
  timeout : Option Nat
  maxRetries : Option Nat
  retryDelay : Option Nat

/-- Modelled from the spec: resolved fields including the base URL. -/
structure DmmApiClientConfigB where
  apiId : String
  affiliateId : String
  baseUrl : String
  timeout : Nat
  maxRetries : Nat
  retryDelay : Nat

/-- The fixed production endpoint (`client.ts:39`). -/
def defaultBaseUrl : String := "https://api.dmm.com/affiliate/v3"

/-- Modelled from the spec: a well-formed http/https URL — an `http://` or
`https://` scheme followed by a non-empty remainder.  The empty string,
schemeless text and non-http(s) schemes are all rejected. -/
def isValidHttpUrl (s : String) : Bool :=
  if listStartsWith s.data ("http://".data) then decide (7 < s.data.length)
  else if listStartsWith s.data ("https://".data) then decide (8 < s.data.length)
  else false

/-- Trailing slash normalization of a supplied base URL. -/
def stripTrailingSlash (s : String) : String :=
  if s.data.getLast? == some '/' then ⟨s.data.dropLast⟩ else s

/-- Modelled from the spec: construction with `baseUrl` support.  Credential
validation and default resolution are those of `client.ts:58-67`; a supplied
`baseUrl` is validated synchronously (construction is pure — no network
activity can precede the failure) and used with its trailing slash stripped,
while an absent one leaves the production endpoint. -/
def mkDmmApiClientB (o : DmmApiClientOptionsB) : Except String DmmApiClientConfigB :=
  if o.apiId = "" ∨ o.affiliateId = "" then
    .error "API ID and Affiliate ID are required."
  else
    match o.baseUrl with
    | none =>
      .ok { apiId := o.apiId, affiliateId := o.affiliateId,
            baseUrl := defaultBaseUrl,
            timeout := jsOrDefault o.timeout 10000,
            maxRetries := o.maxRetries.getD 3,
            retryDelay := jsOrDefault o.retryDelay 1000 }
    | some b =>
      if isValidHttpUrl b then
        .ok { apiId := o.apiId, affiliateId := o.affiliateId,
              baseUrl := stripTrailingSlash b,
              timeout := jsOrDefault o.timeout 10000,
              maxRetries := o.maxRetries.getD 3,
              retryDelay := jsOrDefault o.retryDelay 1000 }
      else
        .error "Invalid baseUrl: must be a valid URL string or undefined."

/-! ## Progress of the pagination cursor -/

/-- Every successfully fetched page with records moves the cursor strictly
past the offset at which it was requested (`pagOffsetSeq`), as
server-normalized consecutive pages do.  The code trusts the
server-reported `first_position` for advancement, so this is the condition
under which the loop makes progress. -/
def PagAdvances {α : Type}
    (fetchPage : Nat → Except FetchFailure (ItemListResponseM α)) : Prop :=
  ∀ n r, fetchPage n = .ok r → ∀ its, r.items = some its → 0 < its.length →
    pagOffsetSeq fetchPage n < r.first_position + its.length

/-! ## Concrete oracles used by witnesses and counterexamples -/

/-- A fetch rejecting every call with an `AbortError` (fired timeout). -/
def abortFetch : Nat → FetchOutcome :=
  fun _ => .err ⟨"AbortError", "This operation was aborted", false⟩

/-- A server answering 200 with a JSON object lacking the `result` key. -/
def noResultFetch : Nat → FetchOutcome :=
  fun _ => .resp ⟨200, "OK", .ok (Json.obj [("foo", Json.null)]), ""⟩

/-- A list endpoint serving three pages advertising `total_count = 250`,
with caller-chosen `first_position` values (queries past the third page
repeat the last page; a terminating run never issues them). -/
def threePageFetch {α : Type} (p1 p2 p3 : List α) (fp1 fp2 fp3 : Nat) :
    Nat → Except FetchFailure (ItemListResponseM α)
  | 0 => .ok ⟨p1.length, 250, fp1, some p1⟩
  | 1 => .ok ⟨p2.length, 250, fp2, some p2⟩
  | _ + 2 => .ok ⟨p3.length, 250, fp3, some p3⟩

/-- A list endpoint whose every fetch, the first one included, rejects. -/
def alwaysFailFetch : Nat → Except FetchFailure (ItemListResponseM Nat) :=
  fun _ => .error ⟨"API Error"⟩

/-- A list endpoint whose first page succeeds and whose every later fetch
rejects with `e`. -/
def firstPageThenFail {α : Type} (r : ItemListResponseM α) (e : FetchFailure) :
    Nat → Except FetchFailure (ItemListResponseM α)
  | 0 => .ok r
  | _ + 1 => .error e

/-- A server always answering `total_count = 1`, `first_position = 0` and a
single record: the cursor is reset to `0 + 1 = 1` on every page, so the loop
guard `currentOffset <= totalCount` never fails. -/
def stuckPageFetch : Nat → Except FetchFailure (ItemListResponseM Nat) :=
  fun _ => .ok ⟨1, 1, 0, some [0]⟩

/-- A well-behaved one-page server: the single record is served at
`first_position = 1` with `total_count = 1`; later (never issued) fetches
return an empty page. -/
def onePageFetch : Nat → Except FetchFailure (ItemListResponseM Nat)
  | 0 => .ok ⟨1, 1, 1, some [7]⟩
  | _ + 1 => .ok ⟨0, 1, 1, some []⟩

/-! ## Lemmas about one request-loop iteration -/

/-- An abort-classified caught error is rethrown as the timeout of
`client.ts:142`, never retried. -/
theorem requestCatch_timeout (R D T : Nat) (ep : String) (a : Nat) (e : JsError)
    (ht : isTimeoutError e = true) :
    requestCatch R D T ep a e =
      .fail (.timedOut ("API request to " ++ ep ++ " timed out after " ++
        toString T ++ "ms")) := by
  unfold requestCatch
  rw [ht]
  simp

/-- The invalid-envelope error thrown at `client.ts:105` is neither
abort-flavoured nor a `TypeError`, so the catch block rethrows it wrapped
(`client.ts:158`) without retrying. -/
theorem requestCatch_invalid_format (R D T : Nat) (ep : String) (a : Nat) :
    requestCatch R D T ep a invalidFormatError =
      .fail (.wrappedFailure ("Error during API request to " ++ ep ++ " after " ++
        toString a ++ " attempts: " ++ invalidFormatError.message)) := by
  unfold requestCatch
  rw [show isTimeoutError invalidFormatError = false by decide]
  simp [invalidFormatError]

/-- A 2xx response whose parsed body lacks the `result` key flows into the
catch block carrying the line-105 error. -/
theorem requestStep_invalid_format (R D T : Nat) (ep : String) (a : Nat)
    (r : HttpResponse) (data : Json) (hok : 200 ≤ r.status ∧ r.status ≤ 299)
    (hjson : r.jsonBody = .ok data) (hmiss : hasResultField data = false) :
    requestStep R D T ep a (.resp r) =
      requestCatch R D T ep a invalidFormatError := by
  simp only [requestStep]
  rw [if_pos hok, hjson]
  simp [hmiss]

/-! ## Claim theorems -/

/-- C3: whenever the first network call fails with an abort/timeout-classified
signal (an `AbortError` or an abort-flavoured message), `request` raises the
timeout error of `client.ts:142` — whose message embeds the configured
timeout value — after exactly one network call and with no retry delay,
regardless of the configured `maxRetries`. -/
theorem request_timeout_single_call (R D T : Nat) (ep : String)
    (fetch : Nat → FetchOutcome) (e : JsError)
    (h0 : fetch 0 = .err e) (ht : isTimeoutError e = true) :
    request R D T ep fetch =
      ⟨1, [], .error (.timedOut ("API request to " ++ ep ++
        " timed out after " ++ toString T ++ "ms"))⟩ := by
  unfold request
  rw [requestGo.eq_def, h0]
  simp only [requestStep]
  rw [requestCatch_timeout R D T ep 0 e ht]

/-- Witness for C3: an `AbortError` rejection with `maxRetries = 3` makes one
call and surfaces the 500 ms timeout in the message. -/
theorem request_timeout_single_call_witness :
    request 3 1000 500 "/ItemList" abortFetch =
      ⟨1, [], .error (.timedOut "API request to /ItemList timed out after 500ms")⟩ :=
  request_timeout_single_call 3 1000 500 "/ItemList" abortFetch
    ⟨"AbortError", "This operation was aborted", false⟩ rfl (by decide)

/-- C5: a 2xx response whose JSON body lacks a top-level `result` key (or is
not an object) makes `request` fail after exactly one network call with no
retry, for every configured `maxRetries`; the failure wraps the
invalid-format parse message of `client.ts:105` via the rethrow of
`client.ts:158`. -/
theorem request_missing_result_single_attempt (R D T : Nat) (ep : String)
    (fetch : Nat → FetchOutcome) (r : HttpResponse) (data : Json)
    (h0 : fetch 0 = .resp r) (hok : 200 ≤ r.status ∧ r.status ≤ 299)
    (hjson : r.jsonBody = .ok data) (hmiss : hasResultField data = false) :
    request R D T ep fetch =
      ⟨1, [], .error (.wrappedFailure ("Error during API request to " ++ ep ++
        " after 0 attempts: Invalid API response format: \"result\" field is missing."))⟩ := by
  unfold request
  rw [requestGo.eq_def, h0]
  rw [requestStep_invalid_format R D T ep 0 r data hok hjson hmiss,
    requestCatch_invalid_format R D T ep 0]
  simp only [String.append_assoc]
  rfl

/-- Witness for C5: a 200 response whose body is an object without `result`
fails in one attempt with the wrapped parse message, at `maxRetries = 5`. -/
theorem request_missing_result_single_attempt_witness :
    request 5 9 500 "/FloorList" noResultFetch =
      ⟨1, [], .error (.wrappedFailure ("Error during API request to /FloorList" ++
        " after 0 attempts: Invalid API response format: \"result\" field is missing."))⟩ :=
  request_missing_result_single_attempt 5 9 500 "/FloorList" noResultFetch
    ⟨200, "OK", .ok (Json.obj [("foo", Json.null)]), ""⟩ (Json.obj [("foo", Json.null)])
    rfl (by decide) rfl (by decide)

/-- C10: constructing a client with `timeout: 0` or `retryDelay: 0` does not
fail and silently substitutes the defaults (10000 and 1000, because `||`
treats the falsy `0` as absent), whereas `maxRetries: 0` is honored as `0`
(resolved with `??`) and not replaced by the default of 3. -/
theorem construct_zero_options (a b : String) (h1 : a ≠ "") (h2 : b ≠ "") :
    mkDmmApiClient ⟨a, b, some 0, some 0, some 0⟩ = .ok ⟨a, b, 10000, 0, 1000⟩ ∧
    mkDmmApiClient ⟨a, b, none, none, none⟩ = .ok ⟨a, b, 10000, 3, 1000⟩ := by
  constructor <;> simp [mkDmmApiClient, jsOrDefault, h1, h2]

/-- Witness for C10 at concrete non-empty credentials. -/
theorem construct_zero_options_witness :
    mkDmmApiClient ⟨"a", "b", some 0, some 0, some 0⟩ = .ok ⟨"a", "b", 10000, 0, 1000⟩ ∧
    mkDmmApiClient ⟨"a", "b", none, none, none⟩ = .ok ⟨"a", "b", 10000, 3, 1000⟩ :=
  construct_zero_options "a" "b" (by decide) (by decide)

/-- Entries of `jsObjSet m k v` come from `m` or are the new binding. -/
theorem jsObjSet_entry_src {m : List (String × String)} {k v : String} :
    ∀ kv ∈ jsObjSet m k v, kv ∈ m ∨ kv = (k, v) := by
  intro kv hkv
  unfold jsObjSet at hkv
  split at hkv
  · obtain ⟨p, hp, hep⟩ := List.mem_map.mp hkv
    by_cases hpk : p.1 == k
    · rw [if_pos hpk] at hep; exact .inr hep.symm
    · rw [if_neg hpk] at hep; exact .inl (hep ▸ hp)
  · rcases List.mem_append.mp hkv with h | h
    · exact .inl h
    · simp only [List.mem_singleton] at h; exact .inr h

/-- `jsObjSet` with a different key keeps an existing entry. -/
theorem jsObjSet_mem_of_ne {m : List (String × String)} {k v k' w : String}
    (hne : k' ≠ k) (hmem : (k', w) ∈ m) : (k', w) ∈ jsObjSet m k v := by
  unfold jsObjSet
  split
  · refine List.mem_map.mpr ⟨(k', w), hmem, ?_⟩
    rw [if_neg (by simpa using hne)]
  · exact List.mem_append_left _ hmem

/-- `jsObjSet` with a different key does not change how many entries carry a
given key. -/
theorem jsObjSet_countP_of_ne {m : List (String × String)} {k v k' : String}
    (hne : k ≠ k') :
    (jsObjSet m k v).countP (fun p => p.1 == k') =
      m.countP (fun p => p.1 == k') := by
  unfold jsObjSet
  split
  · rw [List.countP_map]
    refine List.countP_congr ?_
    intro p _
    by_cases hpk : p.1 == k
    · have : p.1 = k := by simpa using hpk
      simp [Function.comp, hpk, this, hne]
    · simp [Function.comp, hpk]
  · rw [List.countP_append]
    simp [hne]

/-- The invariant carried through the parameter-copying loop: the credential
keys stay bound exactly once to the configured credentials, and every other
entry of the object originates from a defined caller parameter. -/
theorem buildQueryParams_fold_inv (apiId affiliateId : String)
    (big : List (String × Option ParamValue)) :
    ∀ (ps : List (String × Option ParamValue)) (acc : List (String × String)),
      (∀ q ∈ ps, q ∈ big) →
      acc.countP (fun p => p.1 == "api_id") = 1 →
      acc.countP (fun p => p.1 == "affiliate_id") = 1 →
      ("api_id", apiId) ∈ acc →
      ("affiliate_id", affiliateId) ∈ acc →
      (∀ kv ∈ acc, kv.1 = "api_id" ∨ kv.1 = "affiliate_id" ∨
        ∃ v, (kv.1, some v) ∈ big ∧ kv.2 = paramValueString v) →
      (ps.foldl queryStep acc).countP (fun p => p.1 == "api_id") = 1 ∧
      (ps.foldl queryStep acc).countP (fun p => p.1 == "affiliate_id") = 1 ∧
      ("api_id", apiId) ∈ ps.foldl queryStep acc ∧
      ("affiliate_id", affiliateId) ∈ ps.foldl queryStep acc ∧
      (∀ kv ∈ ps.foldl queryStep acc, kv.1 = "api_id" ∨ kv.1 = "affiliate_id" ∨
        ∃ v, (kv.1, some v) ∈ big ∧ kv.2 = paramValueString v) := by
  intro ps
  induction ps with
  | nil => intro acc _ h1 h2 h3 h4 h5; exact ⟨h1, h2, h3, h4, h5⟩
  | cons q tl ih =>
    intro acc hbig h1 h2 h3 h4 h5
    simp only [List.foldl_cons]
    have hqbig : q ∈ big := hbig q (List.mem_cons_self q tl)
    have htl : ∀ p ∈ tl, p ∈ big := fun p hp => hbig p (List.mem_cons_of_mem q hp)
    rcases hq2 : q.2 with _ | v
    · refine ih _ htl ?_ ?_ ?_ ?_ ?_ <;>
        simp only [queryStep, hq2] <;> assumption
    · by_cases hk : q.1 ≠ "api_id" ∧ q.1 ≠ "affiliate_id"
      · have hstep : queryStep acc q = jsObjSet acc q.1 (paramValueString v) := by
          simp only [queryStep, hq2, if_pos hk]
        rw [hstep]
        refine ih _ htl ?_ ?_ ?_ ?_ ?_
        · rw [jsObjSet_countP_of_ne hk.1]; exact h1
        · rw [jsObjSet_countP_of_ne hk.2]; exact h2
        · exact jsObjSet_mem_of_ne (Ne.symm hk.1) h3
        · exact jsObjSet_mem_of_ne (Ne.symm hk.2) h4
        · intro kv hkv
          rcases jsObjSet_entry_src kv hkv with h | h
          · exact h5 kv h
          · subst h
            refine .inr (.inr ⟨v, ?_, rfl⟩)
            rw [← hq2]
            exact hqbig
      · have hstep : queryStep acc q = acc := by
          simp only [queryStep, hq2, if_neg hk]
        rw [hstep]
        exact ih _ htl h1 h2 h3 h4 h5

/-- C6: for every caller-supplied parameter mapping, the entry list handed to
`URLSearchParams` (which serializes it one `key=value` pair per entry)
contains the keys `api_id` and `affiliate_id` exactly once each, bound to
the configured credentials — even when the caller supplies conflicting
values for those keys — and every other entry originates from a
caller parameter whose value was defined, so no `undefined`-valued entry is
ever serialized. -/
theorem request_query_credentials (apiId affiliateId : String)
    (params : List (String × Option ParamValue)) :
    (buildQueryParams apiId affiliateId params).countP (fun p => p.1 == "api_id") = 1 ∧
    (buildQueryParams apiId affiliateId params).countP
      (fun p => p.1 == "affiliate_id") = 1 ∧
    ("api_id", apiId) ∈ buildQueryParams apiId affiliateId params ∧
    ("affiliate_id", affiliateId) ∈ buildQueryParams apiId affiliateId params ∧
    (∀ kv ∈ buildQueryParams apiId affiliateId params,
      kv.1 = "api_id" ∨ kv.1 = "affiliate_id" ∨
        ∃ v, (kv.1, some v) ∈ params ∧ kv.2 = paramValueString v) := by
  unfold buildQueryParams
  refine buildQueryParams_fold_inv apiId affiliateId params params
    [("api_id", apiId), ("affiliate_id", affiliateId)] (fun q hq => hq) ?_ ?_ ?_ ?_ ?_
  · simp [List.countP_cons]
  · simp [List.countP_cons]
  · simp
  · simp
  · intro kv hkv
    simp only [List.mem_cons, List.not_mem_nil, or_false] at hkv
    rcases hkv with rfl | rfl
    · exact .inl rfl
    · exact .inr (.inl rfl)

/-- One-step unfolding of the pagination loop with fuel left. -/
theorem getAllItemsGo_succ {α : Type}
    (fetchPage : Nat → Except FetchFailure (ItemListResponseM α))
    (fuel idx cur : Nat) (tot : Option Nat) (ys : List α) (offs : List Nat) :
    getAllItemsGo fetchPage (fuel + 1) idx cur tot ys offs =
      if pagContinue tot cur then
        match fetchPage idx with
        | .error e => .failed ys (offs ++ [cur]) ⟨pagErrMessage cur e, e⟩
        | .ok r =>
          if tot = none ∧ r.total_count = 0 then .done ys (offs ++ [cur])
          else
            match r.items with
            | some its =>
              if 0 < its.length then
                getAllItemsGo fetchPage fuel (idx + 1)
                  (r.first_position + its.length) (some (tot.getD r.total_count))
                  (ys ++ its) (offs ++ [cur])
              else .done ys (offs ++ [cur])
            | none => .done ys (offs ++ [cur])
      else .done ys offs := rfl

/-- The loop guard passes when the cursor is within the known total. -/
theorem pagContinue_pos {t cur : Nat} (h : cur ≤ t) :
    pagContinue (some t) cur = true := by
  simp [pagContinue, h]

/-- The loop guard fails when the cursor has passed the known total. -/
theorem pagContinue_neg {t cur : Nat} (h : t < cur) :
    pagContinue (some t) cur = false := by
  simp [pagContinue]; omega

/-- C2: against a server answering three consecutive pages of sizes 100, 100
and 50 with `total_count = 250` (at arbitrary server-reported
`first_position` values that keep the advertised pages reachable),
`getAllItems` yields exactly 250 records in server order, performs exactly 3
page fetches, and the offset sent on fetch `n + 1` is
`first_position` of fetch `n` plus the record count of fetch `n` — the
requested offset is never used for advancement. -/
theorem getAllItems_three_pages {α : Type} (p1 p2 p3 : List α)
    (fp1 fp2 fp3 : Nat)
    (h1 : p1.length = 100) (h2 : p2.length = 100) (h3 : p3.length = 50)
    (ha : fp1 + 100 ≤ 250) (hb : fp2 + 100 ≤ 250) (hc : 250 < fp3 + 50)
    (fuel : Nat) (hfuel : 4 ≤ fuel) :
    getAllItemsRun (threePageFetch p1 p2 p3 fp1 fp2 fp3) fuel =
      .done (p1 ++ p2 ++ p3) [1, fp1 + 100, fp2 + 100] ∧
    (p1 ++ p2 ++ p3).length = 250 := by
  obtain ⟨f, rfl⟩ : ∃ f, fuel = f + 1 + 1 + 1 + 1 := ⟨fuel - 4, by omega⟩
  constructor
  · unfold getAllItemsRun
    rw [getAllItemsGo.eq_def]
    simp [threePageFetch, pagContinue, Option.getD, h1]
    rw [getAllItemsGo.eq_def]
    simp [threePageFetch, pagContinue, Option.getD, h2, ha]
    rw [getAllItemsGo.eq_def]
    simp [threePageFetch, pagContinue, Option.getD, h3, hb]
    rw [getAllItemsGo.eq_def]
    simp [pagContinue, show ¬ (fp3 + 50 ≤ 250) from by omega]
  · simp [h1, h2, h3]

/-- Witness for C2: three concrete consecutive pages of naturals at
`first_position` 1, 101 and 201, on fuel 4. -/
theorem getAllItems_three_pages_witness :
    getAllItemsRun (threePageFetch (List.range 100) ((List.range 100).map (· + 100))
      ((List.range 50).map (· + 200)) 1 101 201) 4 =
      .done (List.range 100 ++ (List.range 100).map (· + 100) ++
        (List.range 50).map (· + 200)) [1, 101, 201] ∧
    (List.range 100 ++ (List.range 100).map (· + 100) ++
      (List.range 50).map (· + 200)).length = 250 :=
  getAllItems_three_pages (List.range 100) ((List.range 100).map (· + 100))
    ((List.range 50).map (· + 200)) 1 101 201 (by simp) (by simp) (by simp)
    (by omega) (by omega) (by omega) 4 (by omega)

/-- One-step unfolding of `pagYields`. -/
theorem pagYields_succ {α : Type}
    (fetchPage : Nat → Except FetchFailure (ItemListResponseM α)) (n : Nat) :
    pagYields fetchPage (n + 1) =
      pagYields fetchPage n ++
        (match fetchPage n with
         | .ok r => r.items.getD []
         | .error _ => []) := rfl

/-- One-step unfolding of `pagOffsets`. -/
theorem pagOffsets_succ {α : Type}
    (fetchPage : Nat → Except FetchFailure (ItemListResponseM α)) (n : Nat) :
    pagOffsets fetchPage (n + 1) =
      pagOffsets fetchPage n ++ [pagOffsetSeq fetchPage n] := rfl

/-- Once the total `t` is known, a loop positioned at fetch index `j` whose
remaining fetches up to `k` succeed with non-empty in-range pages and whose
`k`-th fetch fails ends in the enhanced failure, carrying all records of the
first `k` pages and all `k + 1` issued offsets. -/
theorem getAllItemsGo_fail_inv {α : Type}
    (fetchPage : Nat → Except FetchFailure (ItemListResponseM α))
    (k : Nat) (e : FetchFailure) (t : Nat)
    (hfail : fetchPage k = .error e)
    (hok : ∀ n, n < k → ∃ r, fetchPage n = .ok r ∧
      ∃ its, r.items = some its ∧ 0 < its.length)
    (hguard : ∀ n, 0 < n → n ≤ k → pagOffsetSeq fetchPage n ≤ t) :
    ∀ fuel j, 0 < j → j ≤ k → k - j < fuel →
      getAllItemsGo fetchPage fuel j (pagOffsetSeq fetchPage j) (some t)
        (pagYields fetchPage j) (pagOffsets fetchPage j) =
      .failed (pagYields fetchPage k) (pagOffsets fetchPage (k + 1))
        ⟨pagErrMessage (pagOffsetSeq fetchPage k) e, e⟩ := by
  intro fuel
  induction fuel with
  | zero => intro j hj hjk hlt; omega
  | succ f ih =>
    intro j hj hjk hlt
    rw [getAllItemsGo_succ, pagContinue_pos (hguard j hj hjk)]
    simp only [if_true]
    by_cases hjeq : j = k
    · subst hjeq
      simp only [hfail]
      rfl
    · obtain ⟨r, hr, its, hits, hlen⟩ := hok j (by omega)
      simp only [hr]
      rw [if_neg (by simp : ¬ ((some t : Option Nat) = none ∧ r.total_count = 0))]
      simp only [hits]
      rw [if_pos hlen]
      have h1 : r.first_position + its.length = pagOffsetSeq fetchPage (j + 1) := by
        rw [pagOffsetSeq.eq_def]
        simp [hr, hits, hlen]
      have h2 : pagYields fetchPage j ++ its = pagYields fetchPage (j + 1) := by
        rw [pagYields_succ, hr]
        simp [hits]
      have h3 : pagOffsets fetchPage j ++ [pagOffsetSeq fetchPage j] =
          pagOffsets fetchPage (j + 1) := rfl
      rw [show (some t : Option Nat).getD r.total_count = t from rfl, h1, h2, h3]
      exact ih (j + 1) (by omega) (by omega) (by omega)

/-- C7: when the page fetch at index `k` rejects with error `e` after zero
or more (`k`) successfully yielded pages, the generator raises an error
whose message embeds the offset at which the failing fetch was issued and
whose `cause` is `e`, and every record of the `k` earlier pages was already
delivered to the consumer and appears untouched in the failure trace. -/
theorem getAllItems_fail_after_pages {α : Type}
    (fetchPage : Nat → Except FetchFailure (ItemListResponseM α))
    (k : Nat) (e : FetchFailure)
    (hfail : fetchPage k = .error e)
    (hok : ∀ n, n < k → ∃ r, fetchPage n = .ok r ∧
      ∃ its, r.items = some its ∧ 0 < its.length)
    (htc : ∀ r, fetchPage 0 = .ok r → r.total_count ≠ 0)
    (hguard : ∀ r, fetchPage 0 = .ok r → ∀ n, 0 < n → n ≤ k →
      pagOffsetSeq fetchPage n ≤ r.total_count)
    (fuel : Nat) (hfuel : k + 1 ≤ fuel) :
    getAllItemsRun fetchPage fuel =
      .failed (pagYields fetchPage k) (pagOffsets fetchPage (k + 1))
        ⟨pagErrMessage (pagOffsetSeq fetchPage k) e, e⟩ := by
  obtain ⟨f, rfl⟩ : ∃ f, fuel = f + 1 := ⟨fuel - 1, by omega⟩
  unfold getAllItemsRun
  rw [getAllItemsGo_succ]
  rw [show pagContinue none 1 = true from rfl]
  simp only [if_true]
  cases k with
  | zero =>
    simp only [hfail]
    rfl
  | succ q =>
    obtain ⟨r0, hr0, its0, hits0, hlen0⟩ := hok 0 (by omega)
    simp only [hr0]
    rw [if_neg (fun h => htc r0 hr0 h.2)]
    simp only [hits0]
    rw [if_pos hlen0]
    have h1 : r0.first_position + its0.length = pagOffsetSeq fetchPage 1 := by
      rw [pagOffsetSeq.eq_def]
      simp [hr0, hits0, hlen0]
    have h2 : ([] : List α) ++ its0 = pagYields fetchPage 1 := by
      rw [pagYields_succ, hr0]
      simp [hits0, pagYields]
    have h3 : ([] : List Nat) ++ [1] = pagOffsets fetchPage 1 := rfl
    rw [show (none : Option Nat).getD r0.total_count = r0.total_count from rfl,
      h1, h2, h3]
    exact getAllItemsGo_fail_inv fetchPage (q + 1) e r0.total_count hfail hok
      (hguard r0 hr0) f 1 (by omega) (by omega) (by omega)

/-- Witness for C7 at both ends of the quantifier: the very first fetch
failing (zero pages yielded, offset 1), and a failure after one page of
total 2 serving `[5]` at position 1 (failing fetch issued at offset 2). -/
theorem getAllItems_fail_after_pages_witness :
    getAllItemsRun alwaysFailFetch 1 =
      .failed [] [1] ⟨"Error in getAllItems at offset 1: API Error", ⟨"API Error"⟩⟩ ∧
    getAllItemsRun (firstPageThenFail (⟨1, 2, 1, some [5]⟩ : ItemListResponseM Nat)
        ⟨"API Error"⟩) 2 =
      .failed [5] [1, 2]
        ⟨"Error in getAllItems at offset 2: API Error", ⟨"API Error"⟩⟩ := by
  constructor
  · exact getAllItems_fail_after_pages alwaysFailFetch 0 ⟨"API Error"⟩ rfl
      (fun n hn => absurd hn (by omega))
      (fun r h => Except.noConfusion h)
      (fun r h => Except.noConfusion h)
      1 (by omega)
  · exact getAllItems_fail_after_pages
      (firstPageThenFail ⟨1, 2, 1, some [5]⟩ ⟨"API Error"⟩) 1 ⟨"API Error"⟩ rfl
      (fun n hn => by
        obtain rfl : n = 0 := by omega
        exact ⟨⟨1, 2, 1, some [5]⟩, rfl, [5], rfl, by decide⟩)
      (fun r h => by
        injection h with h
        subst h
        decide)
      (fun r h n hn hnk => by
        obtain rfl : n = 1 := by omega
        injection h with h
        subst h
        decide)
      2 (by omega)

/-- Against `stuckPageFetch` the loop state repeats forever: the cursor is 1
and the total is 1 at the head of every iteration, so any amount of fuel
runs out. -/
theorem stuckPageFetch_invariant :
    ∀ fuel idx ys offs,
      (getAllItemsGo stuckPageFetch fuel idx 1 (some 1) ys offs).stillRunning = true := by
  intro fuel
  induction fuel with
  | zero => intro idx ys offs; rfl
  | succ f ih =>
    intro idx ys offs
    rw [getAllItemsGo.eq_def]
    simp [stuckPageFetch, pagContinue, Option.getD]
    exact ih (idx + 1) (ys ++ [0]) (offs ++ [1])

/-- C8 counterexample: the claim quantifies over arbitrary server-reported
`total_count`, `first_position` and `items`; the server that always answers
`total_count = 1`, `first_position = 0` and one record makes `getAllItems`
loop forever — neither of the claimed exit conditions is ever reached,
because the code advances the cursor to the server-reported
`first_position + items.length = 1`, which never exceeds the total. -/
theorem getAllItems_not_terminating_cex : ¬ GetAllItemsTerminates stuckPageFetch := by
  rintro ⟨fuel, hfuel⟩
  cases fuel with
  | zero => exact absurd hfuel (by simp [getAllItemsRun, getAllItemsGo, PagResult.stillRunning])
  | succ f =>
    have hrun : (getAllItemsRun stuckPageFetch (f + 1)).stillRunning = true := by
      unfold getAllItemsRun
      rw [getAllItemsGo.eq_def]
      simp [stuckPageFetch, pagContinue, Option.getD]
      exact stuckPageFetch_invariant f 1 ([] ++ [0]) ([] ++ [1])
    rw [hrun] at hfuel
    cases hfuel

/-- With a known total `t`, a run whose cursor follows `pagOffsetSeq` and
whose every fetched non-empty page strictly advances the cursor halts before
the fuel `t + 1 - cursor + 1` is exhausted. -/
theorem getAllItemsGo_halts {α : Type}
    (fetchPage : Nat → Except FetchFailure (ItemListResponseM α))
    (hp : PagAdvances fetchPage) (t : Nat) :
    ∀ fuel idx ys offs, t + 1 - pagOffsetSeq fetchPage idx < fuel →
      (getAllItemsGo fetchPage fuel idx (pagOffsetSeq fetchPage idx) (some t) ys
        offs).stillRunning = false := by
  intro fuel
  induction fuel with
  | zero => intro idx ys offs hlt; omega
  | succ f ih =>
    intro idx ys offs hlt
    rw [getAllItemsGo_succ]
    by_cases hcur : pagOffsetSeq fetchPage idx ≤ t
    · rw [pagContinue_pos hcur]
      simp only [if_true]
      cases hfe : fetchPage idx with
      | error e => simp only [hfe]; rfl
      | ok r =>
        simp only [hfe]
        rw [if_neg (by simp : ¬ ((some t : Option Nat) = none ∧ r.total_count = 0))]
        cases hi : r.items with
        | none => simp only [hi]; rfl
        | some its =>
          simp only [hi]
          by_cases hl : 0 < its.length
          · rw [if_pos hl]
            have hoff : r.first_position + its.length = pagOffsetSeq fetchPage (idx + 1) := by
              rw [pagOffsetSeq.eq_def]
              simp [hfe, hi, hl]
            have hadv := hp idx r hfe its hi hl
            rw [show (some t : Option Nat).getD r.total_count = t from rfl, hoff]
            exact ih (idx + 1) (ys ++ its) (offs ++ [pagOffsetSeq fetchPage idx])
              (by omega)
          · rw [if_neg hl]; rfl
    · rw [show pagContinue (some t) (pagOffsetSeq fetchPage idx) = false from
        pagContinue_neg (by omega)]
      simp [PagResult.stillRunning]

/-- C8 amended: `getAllItems` produces a finite sequence and terminates for
every page stream in which each successfully fetched non-empty page advances
the cursor strictly past the offset at which it was requested (reporting
`first_position + items.length` greater than that offset, as
server-normalized consecutive pages do); termination then happens either
when the advertised total is exhausted or when a page returns zero records
(or fails) before the total is reached.  Without this advancement proviso
the loop need not terminate. -/
theorem getAllItems_terminates_of_advancing {α : Type}
    (fetchPage : Nat → Except FetchFailure (ItemListResponseM α))
    (hp : PagAdvances fetchPage) : GetAllItemsTerminates fetchPage := by
  cases h0 : fetchPage 0 with
  | error e =>
    refine ⟨1, ?_⟩
    unfold getAllItemsRun
    rw [show (1 : Nat) = 0 + 1 from rfl, getAllItemsGo_succ, h0]
    rfl
  | ok r =>
    refine ⟨r.total_count + 2, ?_⟩
    unfold getAllItemsRun
    rw [show r.total_count + 2 = (r.total_count + 1) + 1 from rfl]
    rw [getAllItemsGo_succ]
    rw [show pagContinue none 1 = true from rfl]
    simp only [if_true, h0]
    by_cases htc : r.total_count = 0
    · rw [if_pos ⟨trivial, htc⟩]; rfl
    · rw [if_neg (fun h => htc h.2)]
      cases hi : r.items with
      | none => simp only [hi]; rfl
      | some its =>
        simp only [hi]
        by_cases hl : 0 < its.length
        · rw [if_pos hl]
          have hoff : r.first_position + its.length = pagOffsetSeq fetchPage 1 := by
            rw [pagOffsetSeq.eq_def]
            simp [h0, hi, hl]
          have hadv := hp 0 r h0 its hi hl
          have h1 : pagOffsetSeq fetchPage 0 = 1 := rfl
          rw [show (none : Option Nat).getD r.total_count = r.total_count from rfl, hoff]
          exact getAllItemsGo_halts fetchPage hp r.total_count (r.total_count + 1) 1
            ([] ++ its) ([] ++ [1]) (by omega)
        · rw [if_neg hl]; rfl

/-- Witness for the amended C8: a well-behaved one-page server satisfies the
advancement proviso, and the generator terminates on it. -/
theorem getAllItems_terminates_of_advancing_witness :
    GetAllItemsTerminates onePageFetch := by
  refine getAllItems_terminates_of_advancing onePageFetch ?_
  intro n r h its hits hlen
  match n with
  | 0 =>
    rw [show onePageFetch 0 = .ok ⟨1, 1, 1, some [7]⟩ from rfl] at h
    cases h
    rw [show (⟨1, 1, 1, some [7]⟩ : ItemListResponseM Nat).items = some [7] from rfl]
      at hits
    cases hits
    decide
  | n + 1 =>
    rw [show onePageFetch (n + 1) = .ok ⟨0, 1, 1, some []⟩ from rfl] at h
    cases h
    rw [show (⟨0, 1, 1, some []⟩ : ItemListResponseM Nat).items = some [] from rfl]
      at hits
    cases hits
    simp at hlen

/-- C9 (spec-modelled): client construction accepts an optional `baseUrl`
and fails synchronously — construction is a pure function, so no network
activity can precede the failure — when the supplied `baseUrl` is invalid;
the empty string, schemeless text and a non-http(s) scheme are all invalid;
a valid supplied `baseUrl` is used with its trailing slash stripped in place
of the default production endpoint, and an absent one leaves the default. -/
theorem mkClientB_baseUrl_validation (a b : String) (h1 : a ≠ "") (h2 : b ≠ "")
    (bad good : String) (hbad : isValidHttpUrl bad = false)
    (hgood : isValidHttpUrl good = true) (t m d : Option Nat) :
    mkDmmApiClientB ⟨a, b, some bad, t, m, d⟩ =
      .error "Invalid baseUrl: must be a valid URL string or undefined." ∧
    mkDmmApiClientB ⟨a, b, some good, t, m, d⟩ =
      .ok ⟨a, b, stripTrailingSlash good, jsOrDefault t 10000, m.getD 3,
        jsOrDefault d 1000⟩ ∧
    mkDmmApiClientB ⟨a, b, none, t, m, d⟩ =
      .ok ⟨a, b, defaultBaseUrl, jsOrDefault t 10000, m.getD 3,
        jsOrDefault d 1000⟩ ∧
    isValidHttpUrl "" = false ∧
    isValidHttpUrl "invalid-url" = false ∧
    isValidHttpUrl "ftp://example.com" = false := by
  refine ⟨?_, ?_, ?_, by decide, by decide, by decide⟩ <;>
    simp [mkDmmApiClientB, h1, h2, hbad, hgood]

/-- Witness for C9 at concrete credentials, an invalid `ftp://` URL and a
valid https URL carrying a trailing slash. -/
theorem mkClientB_baseUrl_validation_witness :
    mkDmmApiClientB ⟨"id", "aff", some "ftp://example.com", none, none, none⟩ =
      .error "Invalid baseUrl: must be a valid URL string or undefined." ∧
    mkDmmApiClientB ⟨"id", "aff", some "https://custom.example.com/api/",
        none, none, none⟩ =
      .ok ⟨"id", "aff", stripTrailingSlash "https://custom.example.com/api/",
        jsOrDefault none 10000, (none : Option Nat).getD 3, jsOrDefault none 1000⟩ ∧
    mkDmmApiClientB ⟨"id", "aff", none, none, none, none⟩ =
      .ok ⟨"id", "aff", defaultBaseUrl, jsOrDefault none 10000,
        (none : Option Nat).getD 3, jsOrDefault none 1000⟩ ∧
    isValidHttpUrl "" = false ∧
    isValidHttpUrl "invalid-url" = false ∧
    isValidHttpUrl "ftp://example.com" = false :=
  mkClientB_baseUrl_validation "id" "aff" (by decide) (by decide)
    "ftp://example.com" "https://custom.example.com/api/" (by decide) (by decide)
    none none none

/-- C4 (code evaluation): in the revision under `src/helperClient.ts`,
`getItemById` resolves to `null` when the underlying `getItemList` call
rejects — the rejection is caught, logged and converted to an absent result
instead of propagating, contradicting the propagation policy the spec and
the sibling test file (`src/helperClient.test.ts`) require. -/
theorem getItemById_swallows_failure :
    getItemById (α := Unit) (.error ⟨"API Error"⟩) = .ok none := rfl

end DmmSdk
